import Mathlib

/-!
Shallow embedding of `elastica/wrappers/base_system.py`:
the class `BaseSystemCollection`, a type-validated mutable sequence of
simulated systems, together with its identity-to-index resolution.

Modelling conventions:
* A Python object that can be stored in the collection is an `Entity`,
  carrying the list of class tags of its method-resolution order (`mro`,
  the runtime class and all its superclasses) and a `uid` distinguishing
  distinct objects.  Python `issubclass(cls, tuple_of_types)` becomes
  `issubclass`: some member of the tuple occurs in the mro.
* Python exceptions become the inductive `Err`.  An error carries exactly
  the data the raise site formats into its message: `TypeError` from
  `_check_type` carries the offending class and the allowed tuple
  (`TypeMismatch`); the `AssertionError` in `_get_sys_idx_if_valid`
  formats only the offending index (`IndexOutOfRange (some k)`); a bare
  `IndexError` from the underlying Python list carries no value
  (`IndexOutOfRange none`); the `ValueError` carries the candidate
  (`NotRegistered`).
* Mutating methods are pure functions `BaseSystemCollection → … →
  Except Err BaseSystemCollection`; on an error the original collection
  is returned unmodified by construction, matching "state unchanged on a
  failed mutating operation" because every Python raise happens before
  the underlying list is touched.
* `append` is not defined in the class: it is inherited from
  `collections.abc.MutableSequence`, whose mixin implements
  `append(v)` as `self.insert(len(self), v)`.
* Python list indexing (`l[i]`, `del l[i]`, `l[i] = x`) normalises a
  negative index by adding the length and raises `IndexError` outside
  `[-len, len)`: `normIdx`.  Python's `list.insert` never raises: it
  clamps the position (`pyInsertPos`).  `list.index` returns the first
  position whose element compares equal, else raises `ValueError`.
-/

namespace PyElastica

/-- A Python class, identified by a tag. -/
abbrev ClassId := Nat

/-- The class `elastica.rod.cosserat_rod.RodBase`, the sole initially
allowed system type. -/
def RodBase : ClassId := 0

/-- A Python object admissible as a system: its runtime class together
with all superclasses (`mro`), and an identity tag (`uid`) so that two
distinct objects of the same class are distinguishable.  Equality of
entities models Python `==` on such objects (default: identity). -/
structure Entity where
  mro : List ClassId
  uid : Nat
deriving DecidableEq, Repr

/-- `issubclass(cls, allowed_tuple)`: the class (or one of its
superclasses) occurs in the allowed tuple. -/
def issubclass (mro allowed : List ClassId) : Bool :=
  allowed.any (fun t => mro.contains t)

/-- The exceptions raised by `base_system.py`, carrying the data the
raise site puts into the exception message. -/
inductive Err where
  | TypeMismatch (cls : List ClassId) (allowed : List ClassId)
  | IndexOutOfRange (value : Option Int)
  | NotRegistered (candidate : Entity)
deriving DecidableEq, Repr

/-- The state of a `BaseSystemCollection`: the tuple
`allowed_sys_types` and the backing list `_systems`. -/
structure BaseSystemCollection where
  allowed_sys_types : List ClassId
  _systems : List Entity
deriving DecidableEq, Repr

namespace BaseSystemCollection

/-- `BaseSystemCollection.__init__`: allowed types start as
`(RodBase,)`, systems start empty. -/
def init : BaseSystemCollection := ⟨[RodBase], []⟩

/-- `BaseSystemCollection._check_type`: raise `TypeError` unless the
candidate's class is a subclass of one of `allowed_sys_types`;
otherwise return `True`. -/
def _check_type (c : BaseSystemCollection) (sys : Entity) :
    Except Err Bool :=
  if issubclass sys.mro c.allowed_sys_types then .ok true
  else .error (.TypeMismatch sys.mro c.allowed_sys_types)

/-- `BaseSystemCollection.__len__`. -/
def len (c : BaseSystemCollection) : Nat := c._systems.length

/-- Python list index normalisation: a negative index counts from the
end; outside `[-n, n)` the access raises `IndexError` (`none`). -/
def normIdx (n : Nat) (i : Int) : Option Nat :=
  if 0 ≤ i then (if i < (n : Int) then some i.toNat else none)
  else (if -(n : Int) ≤ i then some (i + (n : Int)).toNat else none)

/-- `BaseSystemCollection.__getitem__`: `self._systems[idx]`. -/
def getitem (c : BaseSystemCollection) (i : Int) : Except Err Entity :=
  match normIdx c.len i with
  | some j =>
    match c._systems[j]? with
    | some e => .ok e
    | none => .error (.IndexOutOfRange none)
  | none => .error (.IndexOutOfRange none)

/-- `BaseSystemCollection.__delitem__`: `del self._systems[idx]`. -/
def delitem (c : BaseSystemCollection) (i : Int) :
    Except Err BaseSystemCollection :=
  match normIdx c.len i with
  | some j => .ok { c with _systems := c._systems.eraseIdx j }
  | none => .error (.IndexOutOfRange none)

/-- `BaseSystemCollection.__setitem__`: `_check_type` first, then
`self._systems[idx] = system`. -/
def setitem (c : BaseSystemCollection) (i : Int) (sys : Entity) :
    Except Err BaseSystemCollection :=
  match c._check_type sys with
  | .error e => .error e
  | .ok _ =>
    match normIdx c.len i with
    | some j => .ok { c with _systems := c._systems.set j sys }
    | none => .error (.IndexOutOfRange none)

/-- The position Python's `list.insert` actually inserts at: a negative
index is shifted by the length and clamped at `0`; a positive index is
clamped at the length.  `list.insert` never raises. -/
def pyInsertPos (n : Nat) (i : Int) : Nat :=
  if i < 0 then (max 0 (i + (n : Int))).toNat else min i.toNat n

/-- `BaseSystemCollection.insert`: `_check_type` first, then
`self._systems.insert(idx, system)`. -/
def insert (c : BaseSystemCollection) (i : Int) (sys : Entity) :
    Except Err BaseSystemCollection :=
  match c._check_type sys with
  | .error e => .error e
  | .ok _ =>
    .ok { c with _systems := c._systems.insertIdx (pyInsertPos c.len i) sys }

/-- `append`, inherited from `MutableSequence`:
`self.insert(len(self), v)`. -/
def append (c : BaseSystemCollection) (sys : Entity) :
    Except Err BaseSystemCollection :=
  c.insert (c.len : Int) sys

/-- `BaseSystemCollection.extend_allowed_types`:
`self.allowed_sys_types += additional_types` (tuple concatenation). -/
def extend_allowed_types (c : BaseSystemCollection)
    (additional_types : List ClassId) : BaseSystemCollection :=
  { c with allowed_sys_types := c.allowed_sys_types ++ additional_types }

/-- `BaseSystemCollection.override_allowed_types`:
`self.allowed_sys_types = allowed_types`. -/
def override_allowed_types (c : BaseSystemCollection)
    (allowed_types : List ClassId) : BaseSystemCollection :=
  { c with allowed_sys_types := allowed_types }

end BaseSystemCollection

/-- The argument of `_get_sys_idx_if_valid`: either an integer
(`isinstance(sys_to_be_added, (int, npint))`) or a system object. -/
inductive SysRef where
  | idx (k : Int)
  | ent (e : Entity)
deriving DecidableEq, Repr

namespace BaseSystemCollection

/-- `BaseSystemCollection._get_sys_idx_if_valid`: an integer is
range-checked by the `assert` (whose message formats only the offending
value) and returned unchanged; an object is type-gated by `_check_type`,
then looked up with `self._systems.index(...)` (first position comparing
equal), raising `ValueError` when absent. -/
def _get_sys_idx_if_valid (c : BaseSystemCollection) (r : SysRef) :
    Except Err Int :=
  match r with
  | .idx k =>
    if -(c.len : Int) ≤ k ∧ k < (c.len : Int) then .ok k
    else .error (.IndexOutOfRange (some k))
  | .ent e =>
    match c._check_type e with
    | .error err => .error err
    | .ok _ =>
      match c._systems.findIdx? (fun x => x == e) with
      | some i => .ok (i : Int)
      | none => .error (.NotRegistered e)

/-- The collection a caller observes after a mutating call: the new
state on success; on an exception the receiver itself, unchanged —
faithful to the source, where every raise happens before `_systems` is
touched. -/
def afterCall (c : BaseSystemCollection)
    (r : Except Err BaseSystemCollection) : BaseSystemCollection :=
  match r with
  | .ok c' => c'
  | .error _ => c

end BaseSystemCollection

/-! Concrete objects used by witnesses, counterexamples and
reachability checks. -/

/-- A plain rod instance (runtime class `RodBase`, no other
superclass modelled). -/
def rod0 : Entity := ⟨[RodBase], 0⟩

/-- An instance of an unrelated class `1`. -/
def sysT1 : Entity := ⟨[1], 0⟩

/-- An instance whose runtime class `1` is a strict subclass of
class `2`. -/
def subRod : Entity := ⟨[1, 2], 0⟩

/-- A collection holding one rod under the default policy. -/
def cRod : BaseSystemCollection := ⟨[RodBase], [rod0]⟩

/-- A collection holding one object of class `1` after the admission
policy was overridden to `(5,)`. -/
def cOverridden : BaseSystemCollection := ⟨[5], [sysT1]⟩

/-- A collection holding one object of class `1` (subclass of `2`)
admitted under policy `(0, 1, 2)`. -/
def cSub : BaseSystemCollection := ⟨[0, 1, 2], [subRod]⟩

end PyElastica

namespace PyElastica

open BaseSystemCollection

/-! Reachability of the concrete collections through the public API. -/

theorem cRod_reachable : BaseSystemCollection.init.append rod0 = .ok cRod := rfl

theorem cOverridden_reachable :
    ((BaseSystemCollection.init.extend_allowed_types [1]).append sysT1).map
      (fun c => c.override_allowed_types [5]) = .ok cOverridden := rfl

theorem cSub_reachable :
    (BaseSystemCollection.init.extend_allowed_types [1, 2]).append subRod =
      .ok cSub := rfl

/-! Helper lemmas about index normalisation and `getitem`. -/

theorem normIdx_eq_some (n : Nat) (i : Int) (h : -(n : Int) ≤ i)
    (h' : i < (n : Int)) :
    normIdx n i = some ((if i < 0 then i + (n : Int) else i).toNat) ∧
      ((if i < 0 then i + (n : Int) else i).toNat) < n := by
  unfold normIdx
  by_cases h0 : 0 ≤ i
  · have hneg : ¬ i < 0 := by omega
    simp only [h0, if_true, h', if_true, hneg, if_false]
    constructor
    · trivial
    · omega
  · have hneg : i < 0 := by omega
    simp only [h0, if_false, h, if_true, hneg, if_true]
    constructor
    · trivial
    · omega

theorem normIdx_eq_none (n : Nat) (i : Int)
    (h : ¬(-(n : Int) ≤ i ∧ i < (n : Int))) : normIdx n i = none := by
  unfold normIdx
  by_cases h0 : 0 ≤ i
  · have : ¬ i < (n : Int) := by omega
    simp [h0, this]
  · have : ¬ -(n : Int) ≤ i := by omega
    simp [h0, this]

theorem getitem_valid (c : BaseSystemCollection) (i : Int)
    (h : -(c.len : Int) ≤ i) (h' : i < (c.len : Int)) :
    ∃ e, c.getitem i = .ok e ∧
      c._systems[((if i < 0 then i + (c.len : Int) else i).toNat)]? = some e := by
  obtain ⟨hn, hlt⟩ := normIdx_eq_some c.len i h h'
  have hlt' : ((if i < 0 then i + (c.len : Int) else i).toNat) < c._systems.length := hlt
  refine ⟨c._systems.get ⟨_, hlt'⟩, ?_, ?_⟩
  · unfold getitem
    rw [hn]
    dsimp only
    rw [List.getElem?_eq_getElem hlt']
    simp [List.get_eq_getElem]
  · rw [List.getElem?_eq_getElem hlt']
    simp [List.get_eq_getElem]

theorem getitem_invalid (c : BaseSystemCollection) (i : Int)
    (h : ¬(-(c.len : Int) ≤ i ∧ i < (c.len : Int))) :
    c.getitem i = .error (.IndexOutOfRange none) := by
  unfold getitem
  rw [normIdx_eq_none c.len i h]

theorem delitem_invalid (c : BaseSystemCollection) (i : Int)
    (h : ¬(-(c.len : Int) ≤ i ∧ i < (c.len : Int))) :
    c.delitem i = .error (.IndexOutOfRange none) := by
  unfold delitem
  rw [normIdx_eq_none c.len i h]

theorem getitem_natCast_ok (c : BaseSystemCollection) (i : Nat) (e : Entity)
    (h : c._systems[i]? = some e) : c.getitem (i : Int) = .ok e := by
  have hi : i < c.len := by
    rcases List.getElem?_eq_some.mp h with ⟨hlt, _⟩
    exact hlt
  have h0 : (0 : Int) ≤ (i : Int) := Int.natCast_nonneg i
  have h1 : (i : Int) < (c.len : Int) := by exact_mod_cast hi
  unfold getitem normIdx
  simp only [h0, if_true, h1, Int.toNat_natCast]
  rw [h]

theorem getitem_ok_natCast (c : BaseSystemCollection) (i : Nat) (e : Entity)
    (h : c.getitem (i : Int) = .ok e) : c._systems[i]? = some e := by
  by_cases hi : i < c.len
  · have h0 : (0 : Int) ≤ (i : Int) := Int.natCast_nonneg i
    have h1 : (i : Int) < (c.len : Int) := by exact_mod_cast hi
    unfold getitem normIdx at h
    simp only [h0, if_true, h1, Int.toNat_natCast] at h
    rcases hh : c._systems[i]? with _ | e'
    · rw [hh] at h
      exact absurd h (by simp)
    · rw [hh] at h
      simp only [Except.ok.injEq] at h
      rw [h]
  · have h1 : ¬ (i : Int) < (c.len : Int) := by exact_mod_cast hi
    have h0 : (0 : Int) ≤ (i : Int) := Int.natCast_nonneg i
    unfold getitem normIdx at h
    simp only [h0, if_true, h1, if_false] at h
    exact absurd h (by simp)

/-- First-match property of `list.index`, embedded as `findIdx?` with an
equality test: an element occurring at position `i` guarantees a first
occurrence at some `j ≤ i`, before which no position holds the
element. -/
theorem findIdx?_first {α : Type} [DecidableEq α] (l : List α) (e : α)
    (i : Nat) (h : l[i]? = some e) :
    ∃ j : Nat, l.findIdx? (fun x => x == e) = some j ∧ j ≤ i ∧
      l[j]? = some e ∧ ∀ k : Nat, k < j → l[k]? ≠ some e := by
  obtain ⟨hi, heq⟩ := List.getElem?_eq_some.mp h
  have hex : ∃ x ∈ l, (fun x => x == e) x = true :=
    ⟨l[i], List.getElem_mem hi, by simp [heq]⟩
  have hfind : l.findIdx? (fun x => x == e) =
      some (l.findIdx (fun x => x == e)) :=
    List.findIdx?_eq_some_of_exists hex
  have hjlt : l.findIdx (fun x => x == e) < l.length :=
    List.findIdx_lt_length_of_exists hex
  refine ⟨l.findIdx (fun x => x == e), hfind, ?_, ?_, ?_⟩
  · by_contra hgt
    push_neg at hgt
    have hfalse := List.not_of_lt_findIdx hgt
    simp only [heq, beq_self_eq_true] at hfalse
    exact Bool.noConfusion hfalse
  · rw [List.getElem?_eq_getElem hjlt]
    have := @List.findIdx_getElem _ (fun x => x == e) l hjlt
    exact congrArg some (eq_of_beq this)
  · intro k hk hsome
    obtain ⟨hklt, hke⟩ := List.getElem?_eq_some.mp hsome
    have hfalse := List.not_of_lt_findIdx hk
    simp only [hke, beq_self_eq_true] at hfalse
    exact Bool.noConfusion hfalse

/-! Claim theorems. -/

/-- C1: an entity whose runtime class is a subclass of no marker in
`allowed_sys_types` is rejected by `append`, `insert` and `setitem`
(`__setitem__`) with `TypeMismatch`, and the caller observes the
collection unchanged: the type check is the first statement of each
method, so the raise happens before `_systems` is touched and the
observed state (`afterCall`) is the receiver itself, with its `len` and
every `getitem` as before. -/
theorem type_gate_rejects (c : BaseSystemCollection) (e : Entity)
    (h : issubclass e.mro c.allowed_sys_types = false) :
    c.append e = .error (.TypeMismatch e.mro c.allowed_sys_types) ∧
    (∀ i : Int,
      c.insert i e = .error (.TypeMismatch e.mro c.allowed_sys_types)) ∧
    (∀ i : Int,
      c.setitem i e = .error (.TypeMismatch e.mro c.allowed_sys_types)) ∧
    c.afterCall (c.append e) = c ∧
    (∀ i : Int, c.afterCall (c.insert i e) = c ∧
      c.afterCall (c.setitem i e) = c) := by
  have hins : ∀ i : Int,
      c.insert i e = .error (.TypeMismatch e.mro c.allowed_sys_types) := by
    intro i
    unfold BaseSystemCollection.insert BaseSystemCollection._check_type
    rw [h]
    simp
  have hset : ∀ i : Int,
      c.setitem i e = .error (.TypeMismatch e.mro c.allowed_sys_types) := by
    intro i
    unfold BaseSystemCollection.setitem BaseSystemCollection._check_type
    rw [h]
    simp
  have happ : c.append e = .error (.TypeMismatch e.mro c.allowed_sys_types) :=
    hins (c.len : Int)
  refine ⟨happ, hins, hset, ?_, ?_⟩
  · rw [happ]
    rfl
  · intro i
    rw [hins i, hset i]
    exact ⟨rfl, rfl⟩

theorem type_gate_rejects_witness :
    BaseSystemCollection.init.append sysT1 =
      .error (.TypeMismatch [1] [RodBase]) :=
  (type_gate_rejects BaseSystemCollection.init sysT1 (by decide)).1

/-- C3 (amended): integer resolution returns an in-range integer
unchanged (`[-len, len)`, negative indices not normalised) and fails
with `IndexOutOfRange` otherwise; the assertion's message carries the
offending value (the current length is not part of the error). -/
theorem resolve_int_spec (c : BaseSystemCollection) (k : Int) :
    ((-(c.len : Int) ≤ k ∧ k < (c.len : Int)) →
      c._get_sys_idx_if_valid (.idx k) = .ok k) ∧
    (¬(-(c.len : Int) ≤ k ∧ k < (c.len : Int)) →
      c._get_sys_idx_if_valid (.idx k) = .error (.IndexOutOfRange (some k))) := by
  constructor <;> intro h <;>
    simp [BaseSystemCollection._get_sys_idx_if_valid, h]

theorem resolve_int_spec_witness :
    BaseSystemCollection.init._get_sys_idx_if_valid (.idx 5) =
      .error (.IndexOutOfRange (some 5)) :=
  (resolve_int_spec BaseSystemCollection.init 5).2 (by decide)

/-- C3 counterexample: the error raised for an out-of-range integer
cannot carry the current length — two collections of different lengths
produce the very same error value for the same out-of-range index. -/
theorem resolve_int_error_carries_no_length :
    BaseSystemCollection.init.len = 0 ∧ cRod.len = 1 ∧
    BaseSystemCollection.init._get_sys_idx_if_valid (.idx 5) =
      .error (.IndexOutOfRange (some 5)) ∧
    cRod._get_sys_idx_if_valid (.idx 5) =
      .error (.IndexOutOfRange (some 5)) :=
  ⟨rfl, rfl, rfl, rfl⟩

/-- C5: with `n = len`, `getitem n`, `getitem (-n-1)` and `delitem n`
all fail with `IndexOutOfRange`; when `n ≥ 1`, `getitem (-1)` returns
the last element and `getitem (n-1)` succeeds. -/
theorem bounds_checks (c : BaseSystemCollection) :
    c.getitem (c.len : Int) = .error (.IndexOutOfRange none) ∧
    c.getitem (-(c.len : Int) - 1) = .error (.IndexOutOfRange none) ∧
    c.delitem (c.len : Int) = .error (.IndexOutOfRange none) ∧
    (1 ≤ c.len →
      (∃ e, c._systems.getLast? = some e ∧ c.getitem (-1) = .ok e) ∧
      (∃ e, c.getitem ((c.len : Int) - 1) = .ok e)) := by
  refine ⟨getitem_invalid c _ (by omega), getitem_invalid c _ (by omega),
    delitem_invalid c _ (by omega), ?_⟩
  intro hn
  constructor
  · obtain ⟨e, hok, hget⟩ := getitem_valid c (-1) (by omega) (by omega)
    refine ⟨e, ?_, hok⟩
    rw [List.getLast?_eq_getElem?]
    have hidx : ((if (-1 : Int) < 0 then -1 + (c.len : Int) else -1).toNat)
        = c._systems.length - 1 := by
      rw [if_pos (show (-1 : Int) < 0 by omega)]
      have hlen : c._systems.length = c.len := rfl
      omega
    rw [← hidx]
    exact hget
  · obtain ⟨e, hok, _⟩ := getitem_valid c ((c.len : Int) - 1) (by omega) (by omega)
    exact ⟨e, hok⟩

theorem bounds_checks_witness :
    ∃ e, cRod._systems.getLast? = some e ∧ cRod.getitem (-1) = .ok e :=
  ((bounds_checks cRod).2.2.2 (by decide)).1

/-- C6 (amended): `getitem i` returns the entity at the position `i`
(negative indices counting from the end) exactly when
`-len ≤ i < len`, and fails with `IndexOutOfRange` exactly when
`i ≥ len` or `i < -len` (not "when `|i| > len`": the failing boundary
`i = len` has `|i| = len`). -/
theorem getitem_bounds (c : BaseSystemCollection) (i : Int) :
    ((-(c.len : Int) ≤ i ∧ i < (c.len : Int)) →
      ∃ e, c.getitem i = .ok e ∧
        c._systems[((if i < 0 then i + (c.len : Int) else i).toNat)]? = some e) ∧
    (¬(-(c.len : Int) ≤ i ∧ i < (c.len : Int)) →
      c.getitem i = .error (.IndexOutOfRange none)) :=
  ⟨fun h => getitem_valid c i h.1 h.2, fun h => getitem_invalid c i h⟩

theorem getitem_bounds_witness :
    ∃ e, cRod.getitem 0 = .ok e ∧
      cRod._systems[((if (0 : Int) < 0 then 0 + (cRod.len : Int) else 0).toNat)]? =
        some e :=
  (getitem_bounds cRod 0).1 (by decide)

/-- C6 counterexample: the claim's "fails only when `|index| > length`"
is refuted at `index = 1` on a one-element collection: the access fails
with `IndexOutOfRange` although `|1| > 1` does not hold. -/
theorem getitem_bounds_cex :
    cRod.len = 1 ∧
    cRod.getitem 1 = .error (.IndexOutOfRange none) ∧
    ¬ ((1 : Int).natAbs > cRod.len) :=
  ⟨rfl, rfl, by decide⟩

/-- C2 (amended): for a valid index `i` whose entity still passes the
current type gate, resolving that entity yields the first index `j`
holding an equal entity, with `j ≤ i` and `getitem j = getitem i`.
(The type-gate hypothesis is necessary: see the counterexample, where a
policy override makes resolution of a registered member raise
`TypeMismatch`.) -/
theorem resolve_roundtrip (c : BaseSystemCollection) (i : Nat) (e : Entity)
    (hget : c.getitem (i : Int) = .ok e)
    (hty : issubclass e.mro c.allowed_sys_types = true) :
    ∃ j : Nat, c._get_sys_idx_if_valid (.ent e) = .ok (j : Int) ∧ j ≤ i ∧
      c.getitem (j : Int) = .ok e ∧
      ∀ k : Nat, k < j → c._systems[k]? ≠ some e := by
  have hsys : c._systems[i]? = some e := getitem_ok_natCast c i e hget
  obtain ⟨j, hfind, hle, hj, hfirst⟩ := findIdx?_first c._systems e i hsys
  refine ⟨j, ?_, hle, getitem_natCast_ok c j e hj, hfirst⟩
  unfold BaseSystemCollection._get_sys_idx_if_valid
    BaseSystemCollection._check_type
  dsimp only
  rw [if_pos hty]
  dsimp only
  rw [hfind]

theorem resolve_roundtrip_witness :
    ∃ j : Nat, cRod._get_sys_idx_if_valid (.ent rod0) = .ok (j : Int) ∧
      j ≤ 0 ∧ cRod.getitem (j : Int) = .ok rod0 ∧
      ∀ k : Nat, k < j → cRod._systems[k]? ≠ some rod0 :=
  resolve_roundtrip cRod 0 rod0 rfl rfl

/-- C2 counterexample: after the admission policy has been overridden,
resolving a still-registered member re-runs the type gate and raises
`TypeMismatch` instead of returning any index, refuting the claim for
an arbitrary (reachable) collection: `cOverridden` holds `sysT1` at the
valid index `0`, yet resolution of `getitem 0` does not return an
index. -/
theorem resolve_roundtrip_cex :
    cOverridden.len = 1 ∧
    cOverridden.getitem 0 = .ok sysT1 ∧
    cOverridden._get_sys_idx_if_valid (.ent sysT1) =
      .error (.TypeMismatch [1] [5]) ∧
    (cOverridden._get_sys_idx_if_valid (.ent sysT1)).isOk = false :=
  ⟨rfl, rfl, rfl, rfl⟩

/-- C4: resolving a non-integer candidate applies the type gate first
(`TypeMismatch` when its class satisfies no allowed marker); otherwise
a linear scan returns the first index holding an equal entity, and if
none matches the resolution fails with `NotRegistered` carrying the
candidate. -/
theorem resolve_entity_cases (c : BaseSystemCollection) (e : Entity) :
    (issubclass e.mro c.allowed_sys_types = false →
      c._get_sys_idx_if_valid (.ent e) =
        .error (.TypeMismatch e.mro c.allowed_sys_types)) ∧
    (issubclass e.mro c.allowed_sys_types = true → e ∈ c._systems →
      ∃ j : Nat, c._get_sys_idx_if_valid (.ent e) = .ok (j : Int) ∧
        c._systems[j]? = some e ∧
        ∀ k : Nat, k < j → c._systems[k]? ≠ some e) ∧
    (issubclass e.mro c.allowed_sys_types = true → e ∉ c._systems →
      c._get_sys_idx_if_valid (.ent e) = .error (.NotRegistered e)) := by
  refine ⟨?_, ?_, ?_⟩
  · intro h
    unfold BaseSystemCollection._get_sys_idx_if_valid
      BaseSystemCollection._check_type
    dsimp only
    rw [if_neg (by simp [h])]
  · intro hty hmem
    obtain ⟨i, hi⟩ := List.getElem?_of_mem hmem
    obtain ⟨j, hfind, _, hj, hfirst⟩ := findIdx?_first c._systems e i hi
    refine ⟨j, ?_, hj, hfirst⟩
    unfold BaseSystemCollection._get_sys_idx_if_valid
      BaseSystemCollection._check_type
    dsimp only
    rw [if_pos hty]
    dsimp only
    rw [hfind]
  · intro hty hmem
    have hnone : c._systems.findIdx? (fun x => x == e) = none := by
      rw [List.findIdx?_eq_none_iff]
      intro x hx
      have : x ≠ e := fun hxe => hmem (hxe ▸ hx)
      simp [this]
    unfold BaseSystemCollection._get_sys_idx_if_valid
      BaseSystemCollection._check_type
    dsimp only
    rw [if_pos hty]
    dsimp only
    rw [hnone]

theorem resolve_entity_cases_witness :
    BaseSystemCollection.init._get_sys_idx_if_valid (.ent rod0) =
      .error (.NotRegistered rod0) :=
  (resolve_entity_cases BaseSystemCollection.init rod0).2.2 rfl (by decide)

/-- C7 (amended): `override_allowed_types` replaces the policy without
touching `_systems` — `len` and every `getitem` are unchanged — and a
subsequent `append` of an entity whose class satisfies no marker of the
new policy fails with `TypeMismatch`.  (The claim's weaker hypothesis
"T1 ≠ T2" does not suffice: a T1 that subclasses T2 is still admitted;
see the counterexample.) -/
theorem override_non_retroactive (c : BaseSystemCollection)
    (ts : List ClassId) :
    (c.override_allowed_types ts).len = c.len ∧
    (∀ i : Int, (c.override_allowed_types ts).getitem i = c.getitem i) ∧
    (∀ e : Entity, issubclass e.mro ts = false →
      (c.override_allowed_types ts).append e =
        .error (.TypeMismatch e.mro ts)) := by
  refine ⟨rfl, fun i => rfl, fun e he => ?_⟩
  unfold BaseSystemCollection.append BaseSystemCollection.insert
    BaseSystemCollection._check_type BaseSystemCollection.override_allowed_types
  dsimp only
  rw [if_neg (by simp [he])]

theorem override_non_retroactive_witness :
    (cRod.override_allowed_types [2]).append sysT1 =
      .error (.TypeMismatch [1] [2]) :=
  (override_non_retroactive cRod [2]).2.2 sysT1 rfl

/-- C7 counterexample: the claim's hypothesis `T1 ≠ T2` is not enough.
`cSub` holds only `subRod`, whose runtime class is `1`; the policy is
overridden to `(2,)` and `1 ≠ 2`, yet appending a fresh instance of
class `1` succeeds, because class `1` is a subclass of class `2`. -/
theorem override_non_retroactive_cex :
    subRod.mro.head? = some 1 ∧ (1 : ClassId) ≠ 2 ∧
    (cSub.override_allowed_types [2]).len = 1 ∧
    (cSub.override_allowed_types [2]).getitem 0 = .ok subRod ∧
    ((cSub.override_allowed_types [2]).append (⟨[1, 2], 1⟩ : Entity)).isOk =
      true :=
  ⟨rfl, by decide, rfl, rfl, rfl⟩

/-- C8: `extend_allowed_types` concatenates the new markers onto the
policy: afterwards an entity is admitted exactly when it was admitted
before or its class satisfies one of the added markers, and the entity
sequence (`len` and every `getitem`) is untouched. -/
theorem extend_allowed_types_spec (c : BaseSystemCollection)
    (additional_types : List ClassId) :
    (∀ e : Entity,
      issubclass e.mro
          (c.extend_allowed_types additional_types).allowed_sys_types =
        (issubclass e.mro c.allowed_sys_types ||
          issubclass e.mro additional_types)) ∧
    (c.extend_allowed_types additional_types).len = c.len ∧
    (∀ i : Int,
      (c.extend_allowed_types additional_types).getitem i = c.getitem i) := by
  refine ⟨fun e => ?_, rfl, fun i => rfl⟩
  unfold issubclass BaseSystemCollection.extend_allowed_types
  dsimp only
  exact List.any_append

theorem pyInsertPos_le (n : Nat) (i : Int) : pyInsertPos n i ≤ n := by
  unfold pyInsertPos
  split <;> omega

/-- C9: `insert` with an admitted entity succeeds at every integer
index (Python's `list.insert` clamps, it never raises): an index at or
beyond the length appends, an index at or below `-length` prepends, an
in-range index inserts before the normalised position; the length grows
by exactly one. -/
theorem insert_total (c : BaseSystemCollection) (e : Entity) (i : Int)
    (h : issubclass e.mro c.allowed_sys_types = true) :
    ∃ c', c.insert i e = .ok c' ∧ c'.len = c.len + 1 ∧
      ((c.len : Int) ≤ i → c'._systems = c._systems ++ [e]) ∧
      (i ≤ -(c.len : Int) → c'._systems = e :: c._systems) ∧
      (-(c.len : Int) < i → i < (c.len : Int) →
        c'._systems = c._systems.insertIdx
          ((if i < 0 then i + (c.len : Int) else i).toNat) e) := by
  refine ⟨{ c with
      _systems := c._systems.insertIdx (pyInsertPos c.len i) e },
    ?_, ?_, ?_, ?_, ?_⟩
  · unfold BaseSystemCollection.insert BaseSystemCollection._check_type
    rw [if_pos h]
  · exact List.length_insertIdx _ _ (pyInsertPos_le c.len i)
  · intro hge
    have hpos : pyInsertPos c.len i = c._systems.length := by
      unfold pyInsertPos
      rw [if_neg (by omega)]
      have hlen : c._systems.length = c.len := rfl
      omega
    dsimp only
    rw [hpos, List.insertIdx_length_self]
  · intro hle
    have hpos : pyInsertPos c.len i = 0 := by
      unfold pyInsertPos
      split <;> omega
    dsimp only
    rw [hpos, List.insertIdx_zero]
  · intro h1 h2
    have hpos : pyInsertPos c.len i =
        (if i < 0 then i + (c.len : Int) else i).toNat := by
      unfold pyInsertPos
      by_cases hi : i < 0
      · rw [if_pos hi, if_pos hi, max_eq_right (by omega)]
      · rw [if_neg hi, if_neg hi]
        exact Nat.min_eq_left (by omega)
    dsimp only
    rw [hpos]

theorem insert_total_witness :
    ∃ c', cRod.insert 0 rod0 = .ok c' ∧ c'.len = cRod.len + 1 ∧
      ((cRod.len : Int) ≤ 0 → c'._systems = cRod._systems ++ [rod0]) ∧
      ((0 : Int) ≤ -(cRod.len : Int) → c'._systems = rod0 :: cRod._systems) ∧
      (-(cRod.len : Int) < 0 → (0 : Int) < (cRod.len : Int) →
        c'._systems = cRod._systems.insertIdx
          ((if (0 : Int) < 0 then 0 + (cRod.len : Int) else 0).toNat) rod0) :=
  insert_total cRod rod0 0 rfl

/-- C10: `delitem` at a valid index succeeds and removes the element at
the normalised position without consulting the admission policy:
under every overridden policy the very same deletion succeeds, so
deletion can never fail with `TypeMismatch`. -/
theorem delitem_no_type_gate (c : BaseSystemCollection) (i : Int)
    (h : -(c.len : Int) ≤ i ∧ i < (c.len : Int)) :
    ∃ c', c.delitem i = .ok c' ∧
      c'._systems = c._systems.eraseIdx
        ((if i < 0 then i + (c.len : Int) else i).toNat) ∧
      c'.len + 1 = c.len ∧
      ∀ ts : List ClassId,
        (c.override_allowed_types ts).delitem i =
          .ok (c'.override_allowed_types ts) := by
  obtain ⟨hn, hlt⟩ := normIdx_eq_some c.len i h.1 h.2
  refine ⟨{ c with
      _systems :=
        c._systems.eraseIdx ((if i < 0 then i + (c.len : Int) else i).toNat) },
    ?_, rfl, ?_, ?_⟩
  · unfold BaseSystemCollection.delitem
    rw [hn]
  · have hlen : (c._systems.eraseIdx
        ((if i < 0 then i + (c.len : Int) else i).toNat)).length =
        if ((if i < 0 then i + (c.len : Int) else i).toNat) <
            c._systems.length
          then c._systems.length - 1 else c._systems.length :=
      List.length_eraseIdx _ _
    have hlt' : ((if i < 0 then i + (c.len : Int) else i).toNat) <
        c._systems.length := hlt
    show (c._systems.eraseIdx _).length + 1 = c.len
    rw [hlen, if_pos hlt']
    have : c._systems.length = c.len := rfl
    omega
  · intro ts
    have hn' : normIdx (c.override_allowed_types ts).len i =
        some ((if i < 0 then i + (c.len : Int) else i).toNat) := hn
    unfold BaseSystemCollection.delitem
    rw [hn']
    rfl

theorem delitem_no_type_gate_witness :
    ∃ c', cRod.delitem 0 = .ok c' ∧
      c'._systems = cRod._systems.eraseIdx
        ((if (0 : Int) < 0 then 0 + (cRod.len : Int) else 0).toNat) ∧
      c'.len + 1 = cRod.len ∧
      ∀ ts : List ClassId,
        (cRod.override_allowed_types ts).delitem 0 =
          .ok (c'.override_allowed_types ts) :=
  delitem_no_type_gate cRod 0 (by decide)

end PyElastica
